import Mathlib

/-!
Verification of the NAMASTE-ICD terminology microservice core
(relevance scoring, search, translation, mapping insertion,
bundle processing with audit logging), shallowly embedded from the
Python sources under src/app.
-/

set_option allowUnsafeReducibility true
attribute [semireducible] Rat.add Rat.mul Rat.sub Rat.div Rat.inv Rat.neg

namespace NamasteICD

/-! Python strings are modelled as lists of characters; `str.lower`,
`str.startswith` and the `in` substring test are embedded below.
`Char.toLower` matches Python lowercasing on the ASCII range. -/

abbrev Str := List Char

def str (s : String) : Str := s.toList

def lowerStr (s : Str) : Str := s.map Char.toLower

/-- startsWithStr s p : Python s.startswith(p). -/
def startsWithStr : Str → Str → Bool
  | _, [] => true
  | [], _ :: _ => false
  | a :: s, b :: p => a == b && startsWithStr s p

/-- containsStr s q : Python q in s (substring containment). -/
def containsStr : Str → Str → Bool
  | [], q => q.isEmpty
  | a :: s, q => startsWithStr (a :: s) q || containsStr s q

/-- Python truthiness of an optional string: None and the empty string
are falsy. -/
def pyTruthyStr : Option Str → Bool
  | none => false
  | some s => !s.isEmpty

/-- Python builtin min on two rationals (returns the first argument on
ties, like Python). -/
def pyMin (a b : ℚ) : ℚ := if b < a then b else a

theorem pyMin_eq_min (a b : ℚ) : pyMin a b = min a b := by
  unfold pyMin
  rcases lt_or_ge b a with h | h
  · rw [if_pos h, min_eq_right (le_of_lt h)]
  · rw [if_neg (not_lt.mpr h), min_eq_left h]

/-! Data model (src/app/db/models.py).  The open `metadata` JSON column
of a concept is represented by the four fields that the service code
reads, plus a flag recording whether the dict holds any further keys
(only the dict's truthiness depends on it). -/

structure ConceptMeta where
  sanskrit_name : Option Str
  english_name : Option Str
  category : Option Str
  subcategory : Option Str
  hasOtherKeys : Bool
deriving DecidableEq

/-- Python truthiness of the metadata dict: true iff it is non-empty. -/
def ConceptMeta.truthy (m : ConceptMeta) : Bool :=
  m.sanskrit_name.isSome || m.english_name.isSome || m.category.isSome ||
    m.subcategory.isSome || m.hasOtherKeys

structure Concept where
  system : Str
  code : Str
  display : Str
  definition : Option Str
  language : Str
  source : Option Str
  version : Option Str
  meta : ConceptMeta
deriving DecidableEq

/-- metaFieldScore ql v : the `+0.2` contribution of one metadata field
in `_calculate_relevance_score` (field present and its stringified
value contains the lowercased query). -/
def metaFieldScore (ql : Str) (v : Option Str) : ℚ :=
  match v with
  | some s => if containsStr (lowerStr s) ql then 2/10 else 0
  | none => 0

/-- NamasteLoader._calculate_relevance_score
(src/app/services/namaste_loader.py, lines 206-247), with Python floats
embedded as rationals. -/
def calculateRelevanceScore (query : Str) (c : Concept) : ℚ :=
  let query_lower := lowerStr query
  let score0 : ℚ := 0
  let score1 :=
    if lowerStr c.code = query_lower then score0 + 1
    else if startsWithStr (lowerStr c.code) query_lower then score0 + 9/10
    else if containsStr (lowerStr c.code) query_lower then score0 + 7/10
    else score0
  let score2 :=
    if lowerStr c.display = query_lower then score1 + 8/10
    else if startsWithStr (lowerStr c.display) query_lower then score1 + 6/10
    else if containsStr (lowerStr c.display) query_lower then score1 + 4/10
    else score1
  let score3 :=
    if pyTruthyStr c.definition &&
        containsStr (lowerStr (c.definition.getD [])) query_lower
    then score2 + 3/10 else score2
  let score4 :=
    if c.system = str "namaste" && c.meta.truthy then
      score3 + metaFieldScore query_lower c.meta.sanskrit_name
        + metaFieldScore query_lower c.meta.english_name
        + metaFieldScore query_lower c.meta.category
        + metaFieldScore query_lower c.meta.subcategory
    else score3
  pyMin score4 1

/-! Specification-level decomposition of the relevance score, written
from the spec text: four independent additive components, clamped. -/

def codeScoreComponent (query : Str) (c : Concept) : ℚ :=
  if lowerStr c.code = lowerStr query then 1
  else if startsWithStr (lowerStr c.code) (lowerStr query) then 9/10
  else if containsStr (lowerStr c.code) (lowerStr query) then 7/10
  else 0

def displayScoreComponent (query : Str) (c : Concept) : ℚ :=
  if lowerStr c.display = lowerStr query then 8/10
  else if startsWithStr (lowerStr c.display) (lowerStr query) then 6/10
  else if containsStr (lowerStr c.display) (lowerStr query) then 4/10
  else 0

def definitionScoreComponent (query : Str) (c : Concept) : ℚ :=
  match c.definition with
  | some d => if containsStr (lowerStr d) (lowerStr query) then 3/10 else 0
  | none => 0

def metadataScoreComponent (query : Str) (c : Concept) : ℚ :=
  if c.system = str "namaste" then
    metaFieldScore (lowerStr query) c.meta.sanskrit_name
      + metaFieldScore (lowerStr query) c.meta.english_name
      + metaFieldScore (lowerStr query) c.meta.category
      + metaFieldScore (lowerStr query) c.meta.subcategory
  else 0

def specRelevanceScore (query : Str) (c : Concept) : ℚ :=
  pyMin (codeScoreComponent query c + displayScoreComponent query c
    + definitionScoreComponent query c + metadataScoreComponent query c) 1

theorem lowerStr_ne_nil {q : Str} (hq : q ≠ []) : lowerStr q ≠ [] := by
  cases q with
  | nil => exact absurd rfl hq
  | cons a s => simp [lowerStr]

theorem containsStr_nil {q : Str} (hq : q ≠ []) : containsStr [] q = false := by
  cases q with
  | nil => exact absurd rfl hq
  | cons a s => simp [containsStr]

theorem codeAccum (q : Str) (c : Concept) (s : ℚ) :
    (if lowerStr c.code = lowerStr q then s + 1
     else if startsWithStr (lowerStr c.code) (lowerStr q) then s + 9/10
     else if containsStr (lowerStr c.code) (lowerStr q) then s + 7/10
     else s) = s + codeScoreComponent q c := by
  unfold codeScoreComponent
  split_ifs <;> ring

theorem displayAccum (q : Str) (c : Concept) (s : ℚ) :
    (if lowerStr c.display = lowerStr q then s + 8/10
     else if startsWithStr (lowerStr c.display) (lowerStr q) then s + 6/10
     else if containsStr (lowerStr c.display) (lowerStr q) then s + 4/10
     else s) = s + displayScoreComponent q c := by
  unfold displayScoreComponent
  split_ifs <;> ring

theorem defAccum (q : Str) (c : Concept) (s : ℚ) (hq : q ≠ []) :
    (if pyTruthyStr c.definition &&
        containsStr (lowerStr (c.definition.getD [])) (lowerStr q)
      then s + 3/10 else s) = s + definitionScoreComponent q c := by
  unfold definitionScoreComponent
  cases hd : c.definition with
  | none => simp [pyTruthyStr]
  | some d =>
    cases d with
    | nil =>
      have h1 : containsStr (lowerStr ([] : Str)) (lowerStr q) = false := by
        simpa [lowerStr] using containsStr_nil (lowerStr_ne_nil hq)
      simp [pyTruthyStr, h1]
    | cons a t =>
      simp only [pyTruthyStr, List.isEmpty_cons, Bool.not_false, Bool.true_and,
        Option.getD_some]
      split_ifs <;> ring

theorem metaSum_eq_zero_of_not_truthy (ql : Str) (m : ConceptMeta)
    (h : m.truthy = false) :
    metaFieldScore ql m.sanskrit_name + metaFieldScore ql m.english_name
      + metaFieldScore ql m.category + metaFieldScore ql m.subcategory = 0 := by
  obtain ⟨f1, f2, f3, f4, ok⟩ := m
  simp only [ConceptMeta.truthy, Bool.or_eq_false_iff] at h
  cases f1 <;> cases f2 <;> cases f3 <;> cases f4 <;>
    simp_all [metaFieldScore]

theorem metaAccum (q : Str) (c : Concept) (s : ℚ) :
    (if c.system = str "namaste" && c.meta.truthy then
        s + metaFieldScore (lowerStr q) c.meta.sanskrit_name
          + metaFieldScore (lowerStr q) c.meta.english_name
          + metaFieldScore (lowerStr q) c.meta.category
          + metaFieldScore (lowerStr q) c.meta.subcategory
      else s) = s + metadataScoreComponent q c := by
  unfold metadataScoreComponent
  by_cases hsys : c.system = str "namaste"
  · cases htr : c.meta.truthy with
    | true => rw [if_pos (by simp [hsys, htr]), if_pos hsys]; ring
    | false =>
      rw [if_neg (by simp [htr]), if_pos hsys,
        metaSum_eq_zero_of_not_truthy (lowerStr q) c.meta htr, add_zero]
  · rw [if_neg (by simp [hsys]), if_neg hsys, add_zero]

/-- C1: for every concept C and non-empty query Q (search queries are
validated non-empty at the boundary), the relevance score computed by
`_calculate_relevance_score` equals the spec formula: mutually exclusive
code component (1.0 / 0.9 / 0.7), plus mutually exclusive display
component (0.8 / 0.6 / 0.4), plus 0.3 for a definition containing Q,
plus 0.2 per matching metadata field for namaste concepts, clamped at
1.0. -/
theorem relevance_score_matches_spec (query : Str) (c : Concept)
    (hq : query ≠ []) :
    calculateRelevanceScore query c = specRelevanceScore query c := by
  simp only [calculateRelevanceScore, specRelevanceScore]
  rw [codeAccum, displayAccum, defAccum query c _ hq, metaAccum]
  congr 1
  ring

def cJwara : Concept :=
  { system := str "namaste", code := str "NAM-AY-0001", display := str "Jwara",
    definition := some (str "Fever in Ayurveda"), language := str "en",
    source := some (str "NAMASTE CSV"), version := some (str "1.0"),
    meta := { sanskrit_name := some (str "Jvara"),
              english_name := some (str "Fever"),
              category := some (str "Ayurveda"),
              subcategory := some (str "Dosha"),
              hasOtherKeys := true } }

/-- Witness for C1: the scoring equality evaluated at a concrete concept
and query. -/
theorem relevance_score_matches_spec_witness :
    (str "jwara") ≠ ([] : Str) ∧
      calculateRelevanceScore (str "jwara") cJwara =
        specRelevanceScore (str "jwara") cJwara :=
  ⟨by decide, relevance_score_matches_spec (str "jwara") cJwara (by decide)⟩

example : calculateRelevanceScore (str "jwara") cJwara = 8/10 := by decide
example : calculateRelevanceScore (str "NAM-AY-0001") cJwara = 1 := by decide
example : calculateRelevanceScore (str "fever") cJwara = 5/10 := by decide

example : containsStr (str "hello") (str "ell") = true := by decide
example : containsStr (str "hello") (str "elo") = false := by decide
example : startsWithStr (str "hello") (str "he") = true := by decide
example : lowerStr (str "HeLLo") = str "hello" := by decide
example : pyMin ((7:ℚ)/10 + 3/10 + 4/10) 1 = 1 := by decide

/-! Stable descending sort, modelling Python `list.sort(key=...,
reverse=True)`: Python's sort is stable, and with `reverse=True` equal
keys keep their original relative order. -/

def insertDesc {α : Type} (key : α → ℚ) (x : α) : List α → List α
  | [] => [x]
  | y :: ys => if key x < key y then y :: insertDesc key x ys else x :: y :: ys

def sortDesc {α : Type} (key : α → ℚ) : List α → List α
  | [] => []
  | x :: xs => insertDesc key x (sortDesc key xs)

theorem insertDesc_perm {α : Type} (key : α → ℚ) (x : α) (l : List α) :
    List.Perm (insertDesc key x l) (x :: l) := by
  induction l with
  | nil => exact List.Perm.refl _
  | cons y ys ih =>
    unfold insertDesc
    split
    · exact (List.Perm.cons y ih).trans (List.Perm.swap x y ys)
    · exact List.Perm.refl _

theorem sortDesc_perm {α : Type} (key : α → ℚ) (l : List α) :
    List.Perm (sortDesc key l) l := by
  induction l with
  | nil => exact List.Perm.refl _
  | cons x xs ih =>
    exact (insertDesc_perm key x (sortDesc key xs)).trans (List.Perm.cons x ih)

theorem mem_sortDesc {α : Type} (key : α → ℚ) (l : List α) (a : α) :
    a ∈ sortDesc key l ↔ a ∈ l := (sortDesc_perm key l).mem_iff

theorem length_sortDesc {α : Type} (key : α → ℚ) (l : List α) :
    (sortDesc key l).length = l.length := (sortDesc_perm key l).length_eq

theorem insertDesc_sorted {α : Type} (key : α → ℚ) (x : α) (l : List α)
    (h : l.Pairwise (fun a b => key b ≤ key a)) :
    (insertDesc key x l).Pairwise (fun a b => key b ≤ key a) := by
  induction l with
  | nil => simp [insertDesc]
  | cons y ys ih =>
    rw [List.pairwise_cons] at h
    unfold insertDesc
    split
    · next hlt =>
      rw [List.pairwise_cons]
      constructor
      · intro b hb
        rcases List.mem_cons.mp ((insertDesc_perm key x ys).mem_iff.mp hb) with
          rfl | hb2
        · exact le_of_lt hlt
        · exact h.1 b hb2
      · exact ih h.2
    · next hge =>
      have hyx : key y ≤ key x := not_lt.mp hge
      rw [List.pairwise_cons]
      constructor
      · intro b hb
        rcases List.mem_cons.mp hb with rfl | hb2
        · exact hyx
        · exact (h.1 b hb2).trans hyx
      · rw [List.pairwise_cons]
        exact ⟨h.1, h.2⟩

theorem sortDesc_sorted {α : Type} (key : α → ℚ) (l : List α) :
    (sortDesc key l).Pairwise (fun a b => key b ≤ key a) := by
  induction l with
  | nil => simp [sortDesc]
  | cons x xs ih => exact insertDesc_sorted key x _ ih

theorem insertDesc_eq_cons {α : Type} (key : α → ℚ) (x : α) (l : List α)
    (h : ∀ y ∈ l, key y ≤ key x) :
    insertDesc key x l = x :: l := by
  cases l with
  | nil => rfl
  | cons y ys =>
    unfold insertDesc
    rw [if_neg (not_lt.mpr (h y (List.mem_cons_self y ys)))]

theorem sortDesc_eq_of_sorted {α : Type} (key : α → ℚ) (l : List α)
    (h : l.Pairwise (fun a b => key b ≤ key a)) :
    sortDesc key l = l := by
  induction l with
  | nil => rfl
  | cons x xs ih =>
    rw [List.pairwise_cons] at h
    simp only [sortDesc]
    rw [ih h.2]
    exact insertDesc_eq_cons key x xs h.1

theorem sortDesc_idem {α : Type} (key : α → ℚ) (l : List α) :
    sortDesc key (sortDesc key l) = sortDesc key l :=
  sortDesc_eq_of_sorted key _ (sortDesc_sorted key l)

theorem filter_insertDesc {α : Type} (key : α → ℚ) (c : ℚ) (x : α)
    (l : List α) :
    (insertDesc key x l).filter (fun a => decide (key a = c)) =
      (x :: l).filter (fun a => decide (key a = c)) := by
  induction l with
  | nil => rfl
  | cons y ys ih =>
    unfold insertDesc
    split
    · next hlt =>
      by_cases hx : key x = c
      · have hy : ¬ key y = c := by
          intro h
          rw [hx, h] at hlt
          exact lt_irrefl c hlt
        simp only [List.filter_cons, ih, decide_eq_true_eq]
        simp [hx, hy]
      · simp only [List.filter_cons, ih, decide_eq_true_eq]
        simp [hx]
    · rfl

theorem filter_sortDesc {α : Type} (key : α → ℚ) (c : ℚ) (l : List α) :
    (sortDesc key l).filter (fun a => decide (key a = c)) =
      l.filter (fun a => decide (key a = c)) := by
  induction l with
  | nil => rfl
  | cons x xs ih =>
    simp only [sortDesc]
    rw [filter_insertDesc]
    simp only [List.filter_cons, ih]

/-! Mapping store model (src/app/db/models.py) and the translation
service (src/app/services/mapping_service.py).  The open `evidence`
JSON column is carried opaquely as a list of key/value pairs. -/

abbrev Evidence := List (Str × Str)

structure Mapping where
  source_system : Str
  source_code : Str
  target_system : Str
  target_code : Str
  equivalence : Str
  confidence : ℚ
  method : Option Str
  evidence : Option Evidence
  curator : Option Str
deriving DecidableEq

/-- MappingService._get_concept: the first stored concept with the given
system and code. -/
def getConcept (concepts : List Concept) (system code : Str) :
    Option Concept :=
  concepts.find? (fun c => decide (c.system = system ∧ c.code = code))

structure TranslationCandidate where
  target_system : Str
  target_code : Str
  target_display : Option Str
  equivalence : Str
  confidence : ℚ
  method : Option Str
  evidence : Option Evidence
deriving DecidableEq

/-- The candidate built from one mapping row inside
MappingService.translate: target concept resolved for its display,
absent when no such concept exists. -/
def translationCandidateOf (concepts : List Concept) (m : Mapping) :
    TranslationCandidate :=
  { target_system := m.target_system
    target_code := m.target_code
    target_display :=
      (getConcept concepts m.target_system m.target_code).map
        (fun c => c.display)
    equivalence := m.equivalence
    confidence := m.confidence
    method := m.method
    evidence := m.evidence }

/-- The mapping rows whose source system and code match the arguments,
in store order. -/
def matchingMappings (mappings : List Mapping) (system code : Str) :
    List Mapping :=
  mappings.filter
    (fun m => decide (m.source_system = system ∧ m.source_code = code))

/-- MappingService.translate (src/app/services/mapping_service.py,
lines 22-61): select matching mappings, build candidates, stable-sort
descending by confidence. -/
def translate (mappings : List Mapping) (concepts : List Concept)
    (system code : Str) : List TranslationCandidate :=
  sortDesc (fun t => t.confidence)
    ((matchingMappings mappings system code).map
      (translationCandidateOf concepts))

/-- C2: translate returns exactly one candidate per stored mapping whose
source system and code equal the arguments (a permutation of their
candidate list; in particular the empty sequence, not an error, when no
mapping matches); each candidate carries the mapping's target_system,
target_code, equivalence, confidence, method and evidence, with
target_display present exactly when a concept with (target_system,
target_code) exists; and the output is sorted descending by confidence,
ties keeping the store's order (stable sort: elements of any fixed
confidence appear exactly as in store order). -/
theorem translate_spec (mappings : List Mapping) (concepts : List Concept)
    (system code : Str) :
    List.Perm (translate mappings concepts system code)
      ((matchingMappings mappings system code).map
        (translationCandidateOf concepts))
    ∧ (matchingMappings mappings system code = [] →
        translate mappings concepts system code = [])
    ∧ (translate mappings concepts system code).Pairwise
        (fun a b => b.confidence ≤ a.confidence)
    ∧ (∀ q : ℚ, (translate mappings concepts system code).filter
          (fun t => decide (t.confidence = q)) =
        ((matchingMappings mappings system code).map
          (translationCandidateOf concepts)).filter
          (fun t => decide (t.confidence = q)))
    ∧ (∀ m ∈ matchingMappings mappings system code,
        (translationCandidateOf concepts m).target_system = m.target_system
        ∧ (translationCandidateOf concepts m).target_code = m.target_code
        ∧ (translationCandidateOf concepts m).equivalence = m.equivalence
        ∧ (translationCandidateOf concepts m).confidence = m.confidence
        ∧ (translationCandidateOf concepts m).method = m.method
        ∧ (translationCandidateOf concepts m).evidence = m.evidence
        ∧ ((translationCandidateOf concepts m).target_display.isSome ↔
            ∃ c ∈ concepts,
              c.system = m.target_system ∧ c.code = m.target_code)) := by
  refine ⟨sortDesc_perm _ _, ?_, sortDesc_sorted _ _,
    fun q => filter_sortDesc _ _ _, ?_⟩
  · intro h
    simp [translate, h, sortDesc]
  · intro m hm
    refine ⟨rfl, rfl, rfl, rfl, rfl, rfl, ?_⟩
    simp [translationCandidateOf, getConcept, List.find?_isSome]

def mapW (tcode : Str) (conf : ℚ) : Mapping :=
  { source_system := str "namaste", source_code := str "NAM-AY-0001",
    target_system := str "icd11", target_code := tcode,
    equivalence := str "relatedto", confidence := conf,
    method := some (str "expert_review"), evidence := none,
    curator := some (str "NAMASTE Team") }

def mappingsW : List Mapping :=
  [mapW (str "AB11") (9/10), mapW (str "AB12") (6/10),
   mapW (str "AB13") (8/10)]

/-- Witness for C2: the sortedness conjunct at a concrete store. -/
theorem translate_spec_witness :
    (translate mappingsW [] (str "namaste") (str "NAM-AY-0001")).Pairwise
      (fun a b => b.confidence ≤ a.confidence) :=
  (translate_spec mappingsW [] (str "namaste") (str "NAM-AY-0001")).2.2.1

example :
    (translate mappingsW [] (str "namaste") (str "NAM-AY-0001")).map
      (fun t => t.confidence) = [9/10, 8/10, 6/10] := by decide

example :
    translate mappingsW [] (str "icd11") (str "ZZ99") = [] := by decide

/-! NamasteLoader.search (src/app/services/namaste_loader.py, lines
109-204): SQL ILIKE filtering (case-insensitive containment, a NULL
column matches nothing), the row limit applied before scoring, mapping
attachment, scoring, and the stable descending sort by score. -/

structure SearchResult where
  concept : Concept
  mappings : List Mapping
  relevance_score : ℚ
deriving DecidableEq

/-- optContains q v : `v ILIKE '%q%'` for a nullable column. -/
def optContains (q : Str) (v : Option Str) : Bool :=
  match v with
  | some s => containsStr (lowerStr s) (lowerStr q)
  | none => false

/-- The WHERE clause of the loader's search query: display, definition
or code ILIKE the query, plus the four metadata fields when the system
filter allows namaste rows. -/
def conceptMatchesQuery (q : Str) (includeMeta : Bool) (c : Concept) :
    Bool :=
  containsStr (lowerStr c.display) (lowerStr q)
  || optContains q c.definition
  || containsStr (lowerStr c.code) (lowerStr q)
  || (includeMeta &&
       (optContains q c.meta.sanskrit_name
        || optContains q c.meta.english_name
        || optContains q c.meta.category
        || optContains q c.meta.subcategory))

/-- The rows produced by the loader's SELECT, in store order: system
filter (only when the argument is truthy), then the text-match filter;
the metadata clauses are included iff system is falsy or "namaste". -/
def filteredConcepts (concepts : List Concept) (q : Str)
    (system : Option Str) : List Concept :=
  let base :=
    match system with
    | some s =>
      if s.isEmpty then concepts
      else concepts.filter (fun c => decide (c.system = s))
    | none => concepts
  let includeMeta : Bool :=
    match system with
    | some s => s.isEmpty || s == str "namaste"
    | none => true
  base.filter (conceptMatchesQuery q includeMeta)

/-- The mappings attached to one search result: the concept's (system,
code) appears as source or as target. -/
def mappingsFor (mappings : List Mapping) (c : Concept) : List Mapping :=
  mappings.filter (fun m =>
    decide ((m.source_system = c.system ∧ m.source_code = c.code)
      ∨ (m.target_system = c.system ∧ m.target_code = c.code)))

/-- NamasteLoader.search: filtered rows, LIMIT applied before scoring,
scored, stable-sorted descending by relevance score. -/
def loaderSearch (concepts : List Concept) (mappings : List Mapping)
    (q : Str) (system : Option Str) (limit : Nat) : List SearchResult :=
  let limited := (filteredConcepts concepts q system).take limit
  sortDesc (fun r => r.relevance_score)
    (limited.map (fun c =>
      { concept := c, mappings := mappingsFor mappings c,
        relevance_score := calculateRelevanceScore q c }))

theorem loaderSearch_sorted (concepts : List Concept)
    (mappings : List Mapping) (q : Str) (system : Option Str)
    (limit : Nat) :
    (loaderSearch concepts mappings q system limit).Pairwise
      (fun a b => b.relevance_score ≤ a.relevance_score) := by
  simp only [loaderSearch]
  exact sortDesc_sorted _ _

theorem loaderSearch_length_le (concepts : List Concept)
    (mappings : List Mapping) (q : Str) (system : Option Str)
    (limit : Nat) :
    (loaderSearch concepts mappings q system limit).length ≤ limit := by
  simp only [loaderSearch, length_sortDesc, List.length_map,
    List.length_take]
  exact min_le_left _ _

theorem metaFieldScore_nonneg (ql : Str) (v : Option Str) :
    0 ≤ metaFieldScore ql v := by
  cases v
  · norm_num [metaFieldScore]
  · simp only [metaFieldScore]
    split_ifs <;> norm_num

theorem calculateRelevanceScore_of_code_eq (q : Str) (c : Concept)
    (hq : lowerStr c.code = lowerStr q) :
    calculateRelevanceScore q c = 1 := by
  simp only [calculateRelevanceScore]
  rw [if_pos hq, pyMin_eq_min]
  apply min_eq_right
  have m1 := metaFieldScore_nonneg (lowerStr q) c.meta.sanskrit_name
  have m2 := metaFieldScore_nonneg (lowerStr q) c.meta.english_name
  have m3 := metaFieldScore_nonneg (lowerStr q) c.meta.category
  have m4 := metaFieldScore_nonneg (lowerStr q) c.meta.subcategory
  split_ifs <;> linarith

def cAB : Concept :=
  { system := str "namaste", code := str "AB", display := str "x",
    definition := none, language := str "en", source := none,
    version := none,
    meta := { sanskrit_name := none, english_name := none,
              category := none, subcategory := none,
              hasOtherKeys := false } }

def cB : Concept :=
  { system := str "namaste", code := str "B", display := str "y",
    definition := none, language := str "en", source := none,
    version := none,
    meta := { sanskrit_name := none, english_name := none,
              category := none, subcategory := none,
              hasOtherKeys := false } }

/-- Counterexample to C4 as stated: with store [cAB, cB] (both rows
match the query because cAB's code contains it), query = cB.code = "B"
and limit 1, the LIMIT is applied before scoring and keeps only the
first matching row, so search does not return cB at all. -/
theorem search_limit_can_drop_code_match :
    cB ∈ [cAB, cB]
    ∧ (str "B") = cB.code
    ∧ cB ∉
        (loaderSearch [cAB, cB] [] (str "B") (some (str "namaste")) 1).map
          (fun r => r.concept) := by decide

/-- C4 (amended): provided the concept is among the first `limit` store
rows matching the query (the row limit is applied before scoring), a
search whose query equals the concept's code up to case-folding returns
that concept with relevance score at least 0.7, and the code component
of its score is exactly 1.0. -/
theorem search_code_match_ranked (concepts : List Concept)
    (mappings : List Mapping) (q : Str) (system : Option Str)
    (limit : Nat) (c : Concept)
    (hq : lowerStr q = lowerStr c.code)
    (hmem : c ∈ (filteredConcepts concepts q system).take limit) :
    (∃ r ∈ loaderSearch concepts mappings q system limit,
        r.concept = c ∧ (7:ℚ)/10 ≤ r.relevance_score)
    ∧ codeScoreComponent q c = 1 := by
  constructor
  · refine ⟨⟨c, mappingsFor mappings c, calculateRelevanceScore q c⟩,
      ?_, rfl, ?_⟩
    · simp only [loaderSearch]
      rw [mem_sortDesc]
      exact List.mem_map_of_mem _ hmem
    · rw [calculateRelevanceScore_of_code_eq q c hq.symm]
      norm_num
  · unfold codeScoreComponent
    rw [if_pos hq.symm]

/-- Witness for C4 (amended): concrete store [cB], query "b", limit 10. -/
theorem search_code_match_ranked_witness :
    (∃ r ∈ loaderSearch [cB] [] (str "b") (some (str "namaste")) 10,
        r.concept = cB ∧ (7:ℚ)/10 ≤ r.relevance_score)
    ∧ codeScoreComponent (str "b") cB = 1 :=
  search_code_match_ranked [cB] [] (str "b") (some (str "namaste")) 10 cB
    (by decide) (by decide)

/-! The merged search route (src/app/routes/lookup.py, lines 26-90) and
the external classification provider client
(src/app/services/icd11_client.py). -/

structure Icd11Entity where
  theCode : Str
  title : Str
  definition : Str
  metaNonempty : Bool
deriving DecidableEq

/-- ICD11Client._parse_icd11_entity: drops entities with an empty code
or title; otherwise builds an icd11 concept record (its own metadata
keys are outside the four namaste fields, so only the cleaned dict's
non-emptiness is retained). -/
def parseIcd11Entity (e : Icd11Entity) : Option Concept :=
  if e.theCode.isEmpty || e.title.isEmpty then none
  else some
    { system := str "icd11", code := e.theCode, display := e.title,
      definition := some e.definition, language := str "en",
      source := some (str "WHO ICD-11"), version := some (str "2025-01"),
      meta := { sanskrit_name := none, english_name := none,
                category := none, subcategory := none,
                hasOtherKeys := e.metaNonempty } }

/-- ICD11Client.search (src/app/services/icd11_client.py, lines 42-95):
`outcome = none` models an HTTP error, timeout or any other exception,
all of which are caught and mapped to the empty list. -/
def icd11Search (outcome : Option (List Icd11Entity)) (limit : Nat) :
    List Concept :=
  match outcome with
  | none => []
  | some entities => (entities.take limit).filterMap parseIcd11Entity

/-- Python `if not system or system in ["namaste", "all"]`. -/
def searchNamasteFlag (system : Option Str) : Bool :=
  match system with
  | none => true
  | some s => s.isEmpty || s == str "namaste" || s == str "all"

/-- Python `if not system or system in ["icd11", "all"]`. -/
def searchIcdFlag (system : Option Str) : Bool :=
  match system with
  | none => true
  | some s => s.isEmpty || s == str "icd11" || s == str "all"

/-- search_terms route: local loader results, external provider results
with fixed relevance 0.5 and no mappings, merged, stable-sorted
descending by score, truncated to limit. -/
def searchTerms (concepts : List Concept) (mappings : List Mapping)
    (ext : Option (List Icd11Entity)) (q : Str) (system : Option Str)
    (limit : Nat) : List SearchResult :=
  let localResults :=
    if searchNamasteFlag system then
      loaderSearch concepts mappings q (some (str "namaste")) limit
    else []
  let icdResults :=
    if searchIcdFlag system then
      (icd11Search ext limit).map (fun c =>
        { concept := c, mappings := [], relevance_score := 1/2 })
    else []
  (sortDesc (fun r => r.relevance_score) (localResults ++ icdResults)).take
    limit

/-- C6: when the external provider call fails (or times out), the merged
search does not fail: it returns exactly the locally-sourced results
(the provider failure is mapped to an empty external sequence and never
surfaced). -/
theorem provider_failure_degrades_to_local_only (concepts : List Concept)
    (mappings : List Mapping) (q : Str) (system : Option Str)
    (limit : Nat) :
    searchTerms concepts mappings none q system limit =
      (if searchNamasteFlag system then
        loaderSearch concepts mappings q (some (str "namaste")) limit
      else []) := by
  simp only [searchTerms, icd11Search, List.map_nil, ite_self,
    List.append_nil]
  cases hF : searchNamasteFlag system
  · simp [sortDesc]
  · simp only [if_true]
    rw [sortDesc_eq_of_sorted _ _ (loaderSearch_sorted _ _ _ _ _)]
    exact List.take_of_length_le (loaderSearch_length_le _ _ _ _ _)

/-! MappingService.add_mapping (src/app/services/mapping_service.py,
lines 63-129).  The catch-all except wraps both the duplicate pre-check
query and the insert/commit; a persistence fault at either point
(modelled by DbFault) triggers rollback — the store is unchanged — and a
False return value, never a raised exception. -/

inductive DbFault where
  | ok
  | precheckFault
  | insertFault
deriving DecidableEq

/-- The natural-key match used by the duplicate pre-check. -/
def sameKey4 (ss sc ts tc : Str) (m : Mapping) : Bool :=
  decide (m.source_system = ss ∧ m.source_code = sc
    ∧ m.target_system = ts ∧ m.target_code = tc)

def mkMapping (ss sc ts tc eqv : Str) (conf : ℚ) (method : Option Str)
    (evidence : Option Evidence) (curator : Option Str) : Mapping :=
  { source_system := ss, source_code := sc, target_system := ts,
    target_code := tc, equivalence := eqv, confidence := conf,
    method := method, evidence := evidence, curator := curator }

def addMapping (store : List Mapping) (fault : DbFault)
    (ss sc ts tc eqv : Str) (conf : ℚ) (method : Option Str)
    (evidence : Option Evidence) (curator : Option Str) :
    Bool × List Mapping :=
  match fault with
  | .precheckFault => (false, store)
  | _ =>
    if store.any (sameKey4 ss sc ts tc) then (false, store)
    else
      match fault with
      | .insertFault => (false, store)
      | _ =>
        (true,
         store ++ [mkMapping ss sc ts tc eqv conf method evidence curator])

/-- C5: on a store without the 4-tuple, two identical add_mapping calls
return true then false, and afterwards the store holds exactly one row
with that 4-tuple. -/
theorem add_mapping_idempotent_pair (store : List Mapping)
    (ss sc ts tc eqv : Str) (conf : ℚ) (method : Option Str)
    (evidence : Option Evidence) (curator : Option Str)
    (h : store.any (sameKey4 ss sc ts tc) = false) :
    (addMapping store DbFault.ok ss sc ts tc eqv conf method evidence
      curator).1 = true
    ∧ (addMapping (addMapping store DbFault.ok ss sc ts tc eqv conf
        method evidence curator).2 DbFault.ok ss sc ts tc eqv conf
        method evidence curator).1 = false
    ∧ (addMapping (addMapping store DbFault.ok ss sc ts tc eqv conf
        method evidence curator).2 DbFault.ok ss sc ts tc eqv conf
        method evidence curator).2.countP (sameKey4 ss sc ts tc) = 1 := by
  have hm : sameKey4 ss sc ts tc
      (mkMapping ss sc ts tc eqv conf method evidence curator) = true := by
    simp [sameKey4, mkMapping]
  have e1 : addMapping store DbFault.ok ss sc ts tc eqv conf method
      evidence curator =
      (true,
       store ++ [mkMapping ss sc ts tc eqv conf method evidence curator]) := by
    simp [addMapping, h]
  have hany : (store ++
      [mkMapping ss sc ts tc eqv conf method evidence curator]).any
      (sameKey4 ss sc ts tc) = true := by
    simp [List.any_append, hm]
  have e2 : addMapping (store ++
      [mkMapping ss sc ts tc eqv conf method evidence curator])
      DbFault.ok ss sc ts tc eqv conf method evidence curator =
      (false,
       store ++ [mkMapping ss sc ts tc eqv conf method evidence curator]) := by
    simp [addMapping, hany]
  have hzero : store.countP (sameKey4 ss sc ts tc) = 0 := by
    rw [List.countP_eq_zero]
    intro a ha
    have := List.any_eq_false.mp h
    simpa using this a ha
  rw [e1]
  simp only [e2]
  refine ⟨trivial, trivial, ?_⟩
  rw [List.countP_append, hzero, List.countP_cons, List.countP_nil, hm]
  norm_num

/-- C9: add_mapping never raises: any persistence fault (during the
pre-check or the insert) yields rollback and a false return with the
store unchanged, so the caller cannot distinguish a persistence failure
from the duplicate case, which also returns (false, unchanged store). -/
theorem add_mapping_failure_returns_false (store : List Mapping)
    (fault : DbFault) (ss sc ts tc eqv : Str) (conf : ℚ)
    (method : Option Str) (evidence : Option Evidence)
    (curator : Option Str) :
    (fault ≠ DbFault.ok →
      addMapping store fault ss sc ts tc eqv conf method evidence curator
        = (false, store))
    ∧ (store.any (sameKey4 ss sc ts tc) = true →
      addMapping store DbFault.ok ss sc ts tc eqv conf method evidence
        curator = (false, store)) := by
  constructor
  · intro hf
    cases fault with
    | ok => exact absurd rfl hf
    | precheckFault => rfl
    | insertFault =>
      cases hdup : store.any (sameKey4 ss sc ts tc) <;>
        simp [addMapping, hdup]
  · intro hdup
    simp [addMapping, hdup]

/-- Witness for C5: empty store, concrete arguments. -/
theorem add_mapping_idempotent_pair_witness :
    (addMapping (addMapping [] DbFault.ok (str "namaste")
      (str "NAM-AY-0001") (str "icd11") (str "AB11") (str "relatedto")
      (8/10) none none none).2 DbFault.ok (str "namaste")
      (str "NAM-AY-0001") (str "icd11") (str "AB11") (str "relatedto")
      (8/10) none none none).1 = false :=
  (add_mapping_idempotent_pair [] (str "namaste") (str "NAM-AY-0001")
    (str "icd11") (str "AB11") (str "relatedto") (8/10) none none none
    (by decide)).2.1

/-- Witness for C9: an insert fault on an empty store returns false and
leaves the store empty. -/
theorem add_mapping_failure_returns_false_witness :
    addMapping [] DbFault.insertFault (str "namaste") (str "NAM-AY-0001")
      (str "icd11") (str "AB11") (str "relatedto") (8/10) none none none
      = (false, []) :=
  (add_mapping_failure_returns_false [] DbFault.insertFault
    (str "namaste") (str "NAM-AY-0001") (str "icd11") (str "AB11")
    (str "relatedto") (8/10) none none none).1 (by decide)

/-! FHIR bundle processing (src/app/routes/bundle_upload.py,
upload_bundle, lines 28-245) with the audit sink
(src/app/security/audit.py).  Entry resources are modelled by the parts
the route reads and writes: resourceType, optional id, the code.coding
array and the meta.extension list.  Nondeterministic collaborators
(uuid4 values for missing resource ids, DB-assigned audit record ids,
the timestamped provenance marker, whether a given audit write raises
and its exception text) are supplied as environment functions indexed by
write position: per-entry audit writes use the entry index, the summary
audit uses entries.length, the best-effort failure audit uses
entries.length + 1. -/

structure Coding where
  system : Str
  code : Str
  display : Str
  userSelected : Bool
deriving DecidableEq

structure Resource where
  resourceType : Str
  id : Option Str
  codings : List Coding
  metaExtensions : List Str
deriving DecidableEq

structure AuditDetail where
  bundle_id : Str
  consent_ref : Option Str
  resource_type : Option Str
  mappings_added : Option Nat
  resources_processed : Option Nat
  processing_time_ms : Option ℚ
  error_message : Option Str
deriving DecidableEq

structure AuditRecord where
  actor : Str
  action : Str
  resource_type : Option Str
  resource_id : Option Str
  detail : AuditDetail
deriving DecidableEq

structure BundleEnv where
  concepts : List Concept
  mappings : List Mapping
  actor : Str
  bundleId : Str
  provenanceId : Str
  freshId : Nat → Str
  marker : Str
  auditFails : Nat → Bool
  auditIds : Nat → Str
  auditExc : Nat → Str

def namasteSystemURI : Str :=
  str "http://namaste.example.com/fhir/CodeSystem/namaste"

/-- The first coding on the resource whose system is the local
terminology's canonical URI. -/
def findNamasteCoding (codings : List Coding) : Option Coding :=
  codings.find? (fun cd => decide (cd.system = namasteSystemURI))

/-- The icd11 coding appended from the first translation candidate
(`translations[0].target_display or ""` maps an absent or empty display
to the empty string). -/
def icd11CodingOf (t : TranslationCandidate) : Coding :=
  { system := str "http://terminology.hl7.org/CodeSystem/icd11",
    code := t.target_code,
    display := t.target_display.getD [],
    userSelected := false }

structure ProcState where
  resources : List Resource
  created : List Str
  errors : List Str
  mappingsAdded : Nat
  entryAudits : List AuditRecord
deriving DecidableEq

def initState : ProcState := ⟨[], [], [], 0, []⟩

def entryAuditRecord (env : BundleEnv) (consentRef : Option Str)
    (r : Resource) (rid : Str) (count : Nat) : AuditRecord :=
  { actor := env.actor, action := str "create",
    resource_type := some r.resourceType, resource_id := some rid,
    detail := { bundle_id := env.bundleId, consent_ref := consentRef,
                resource_type := some r.resourceType,
                mappings_added := some count,
                resources_processed := none, processing_time_ms := none,
                error_message := none } }

def auditErrorMsg (rt rid excMsg : Str) : Str :=
  str "Error recording audit for " ++ rt ++ str "/" ++ rid
    ++ str ": " ++ excMsg

/-- One iteration of the entry loop (lines 77-151): branch on the
resource kind, then attempt the per-entry audit write inside its own
try/except. -/
def processEntry (env : BundleEnv) (consentRef : Option Str) (idx : Nat)
    (r : Resource) (st : ProcState) : ProcState :=
  let rid := r.id.getD (env.freshId idx)
  let st1 :=
    if r.resourceType = str "Condition" then
      let step :=
        match findNamasteCoding r.codings with
        | some nc =>
          match translate env.mappings env.concepts (str "namaste")
              nc.code with
          | t :: _ =>
            ({ r with codings := r.codings ++ [icd11CodingOf t] }, 1)
          | [] => (r, 0)
        | none => (r, 0)
      let r2 :=
        { step.1 with
            metaExtensions := step.1.metaExtensions ++ [env.marker] }
      { st with resources := st.resources ++ [r2],
                created := st.created ++ [str "Condition/" ++ rid],
                mappingsAdded := st.mappingsAdded + step.2 }
    else if r.resourceType = str "Observation"
        ∨ r.resourceType = str "DiagnosticReport"
        ∨ r.resourceType = str "Procedure" then
      { st with resources := st.resources ++ [r],
                created := st.created ++ [r.resourceType ++ str "/" ++ rid] }
    else
      { st with resources := st.resources ++ [r] }
  if env.auditFails idx then
    { st1 with errors := st1.errors ++
        [auditErrorMsg r.resourceType rid (env.auditExc idx)] }
  else
    { st1 with entryAudits := st1.entryAudits ++
        [entryAuditRecord env consentRef r rid st1.mappingsAdded] }

def processEntries (env : BundleEnv) (consentRef : Option Str) :
    Nat → List Resource → ProcState → ProcState
  | _, [], st => st
  | idx, r :: rest, st =>
    processEntries env consentRef (idx + 1) rest
      (processEntry env consentRef idx r st)

structure Bundle where
  resourceType : Str
  entries : List Resource
deriving DecidableEq

structure BundleResponse where
  success : Bool
  message : Str
  created_resources : List Str
  provenance_id : Str
  audit_id : Str
  mappings_added : Nat
  errors : List Str
deriving DecidableEq

inductive HttpOutcome where
  | ok (resp : BundleResponse)
  | error (status : Nat) (detail : Str)
deriving DecidableEq

/-- The consent reference scan (lines 67-72): id of the first Consent
entry, if any (itself possibly absent). -/
def bundleConsentRef (bundle : Bundle) : Option Str :=
  match bundle.entries.find?
      (fun r => decide (r.resourceType = str "Consent")) with
  | some r => r.id
  | none => none

def summaryAuditRecord (env : BundleEnv) (consentRef : Option Str)
    (resourcesProcessed mappingsAdded : Nat) (elapsedMs : ℚ) :
    AuditRecord :=
  { actor := env.actor, action := str "upload",
    resource_type := some (str "Bundle"),
    resource_id := some env.bundleId,
    detail := { bundle_id := env.bundleId, consent_ref := consentRef,
                resource_type := none,
                mappings_added := some mappingsAdded,
                resources_processed := some resourcesProcessed,
                processing_time_ms := some elapsedMs,
                error_message := none } }

def failureAuditRecord (env : BundleEnv) (excMsg : Str) (elapsedMs : ℚ) :
    AuditRecord :=
  { actor := env.actor, action := str "upload",
    resource_type := some (str "Bundle"),
    resource_id := some env.bundleId,
    detail := { bundle_id := env.bundleId, consent_ref := none,
                resource_type := none, mappings_added := none,
                resources_processed := none,
                processing_time_ms := some elapsedMs,
                error_message := some excMsg } }

/-- upload_bundle: envelope validation, consent scan, the entry loop,
the provenance reference, and the summary audit write — the latter is
not wrapped in its own try/except, so its failure falls through to the
outer handler, which best-effort writes a failure audit (swallowing its
own failure) and raises HTTP 500.  Returns the HTTP outcome together
with the audit records actually written, in write order. -/
def uploadBundle (env : BundleEnv) (bundle : Bundle) (elapsedMs : ℚ) :
    HttpOutcome × List AuditRecord :=
  if bundle.resourceType ≠ str "Bundle" then
    (HttpOutcome.error 400
      (str "Invalid bundle: resourceType must be Bundle"), [])
  else
    let consentRef := bundleConsentRef bundle
    let st := processEntries env consentRef 0 bundle.entries initState
    let created := st.created ++ [str "Provenance/" ++ env.provenanceId]
    let summaryIdx := bundle.entries.length
    if env.auditFails summaryIdx then
      let excMsg := env.auditExc summaryIdx
      let failAudits :=
        if env.auditFails (summaryIdx + 1) then []
        else [failureAuditRecord env excMsg elapsedMs]
      (HttpOutcome.error 500 (str "Error processing bundle: " ++ excMsg),
       st.entryAudits ++ failAudits)
    else
      (HttpOutcome.ok
        { success := true,
          message := str "Bundle processed successfully",
          created_resources := created,
          provenance_id := env.provenanceId,
          audit_id := env.auditIds summaryIdx,
          mappings_added := st.mappingsAdded,
          errors := st.errors },
       st.entryAudits ++
         [summaryAuditRecord env consentRef created.length
           st.mappingsAdded elapsedMs])

/-! Closed-form descriptions of the entry loop, for the theorems
below. -/

/-- The resource as the loop leaves it. -/
def transformedResource (env : BundleEnv) (r : Resource) : Resource :=
  if r.resourceType = str "Condition" then
    let step :=
      match findNamasteCoding r.codings with
      | some nc =>
        match translate env.mappings env.concepts (str "namaste")
            nc.code with
        | t :: _ => { r with codings := r.codings ++ [icd11CodingOf t] }
        | [] => r
      | none => r
    { step with metaExtensions := step.metaExtensions ++ [env.marker] }
  else r

/-- The references one entry contributes to created_resources. -/
def entryCreatedRefs (env : BundleEnv) (idx : Nat) (r : Resource) :
    List Str :=
  if r.resourceType = str "Condition" then
    [str "Condition/" ++ (r.id.getD (env.freshId idx))]
  else if r.resourceType = str "Observation"
      ∨ r.resourceType = str "DiagnosticReport"
      ∨ r.resourceType = str "Procedure" then
    [r.resourceType ++ str "/" ++ (r.id.getD (env.freshId idx))]
  else []

/-- How many mappings one entry adds (0 or 1). -/
def entryMappingDelta (env : BundleEnv) (r : Resource) : Nat :=
  if r.resourceType = str "Condition" then
    match findNamasteCoding r.codings with
    | some nc =>
      if (translate env.mappings env.concepts (str "namaste")
          nc.code).isEmpty then 0 else 1
    | none => 0
  else 0

/-- The per-entry audit error messages accumulated from index idx on. -/
def expectedErrors (env : BundleEnv) : Nat → List Resource → List Str
  | _, [] => []
  | idx, r :: rest =>
    (if env.auditFails idx then
      [auditErrorMsg r.resourceType (r.id.getD (env.freshId idx))
        (env.auditExc idx)]
     else []) ++ expectedErrors env (idx + 1) rest

/-- The successful per-entry audit records from index idx on, each
carrying the running mapping count after its own entry. -/
def expectedAudits (env : BundleEnv) (consentRef : Option Str) :
    Nat → Nat → List Resource → List AuditRecord
  | _, _, [] => []
  | idx, count, r :: rest =>
    (if env.auditFails idx then []
     else [entryAuditRecord env consentRef r
            (r.id.getD (env.freshId idx))
            (count + entryMappingDelta env r)]) ++
      expectedAudits env consentRef (idx + 1)
        (count + entryMappingDelta env r) rest

def totalMappingDelta (env : BundleEnv) (entries : List Resource) : Nat :=
  (entries.map (entryMappingDelta env)).sum

/-- The created references accumulated from index idx on. -/
def expectedCreated (env : BundleEnv) : Nat → List Resource → List Str
  | _, [] => []
  | idx, r :: rest =>
    entryCreatedRefs env idx r ++ expectedCreated env (idx + 1) rest

theorem processEntry_effect (env : BundleEnv) (consentRef : Option Str)
    (idx : Nat) (r : Resource) (st : ProcState) :
    processEntry env consentRef idx r st =
      { resources := st.resources ++ [transformedResource env r],
        created := st.created ++ entryCreatedRefs env idx r,
        errors := st.errors ++ (if env.auditFails idx then
          [auditErrorMsg r.resourceType (r.id.getD (env.freshId idx))
            (env.auditExc idx)]
          else []),
        mappingsAdded := st.mappingsAdded + entryMappingDelta env r,
        entryAudits := st.entryAudits ++ (if env.auditFails idx then []
          else
            [entryAuditRecord env consentRef r
              (r.id.getD (env.freshId idx))
              (st.mappingsAdded + entryMappingDelta env r)]) } := by
  simp only [processEntry, transformedResource, entryCreatedRefs,
    entryMappingDelta]
  by_cases hc : r.resourceType = str "Condition"
  · simp only [hc, if_true]
    cases hnc : findNamasteCoding r.codings with
    | none =>
      cases haf : env.auditFails idx <;> simp [hnc, haf]
    | some nc =>
      cases ht : translate env.mappings env.concepts (str "namaste")
          nc.code with
      | nil =>
        cases haf : env.auditFails idx <;> simp [hnc, ht, haf, List.isEmpty]
      | cons t ts =>
        cases haf : env.auditFails idx <;> simp [hnc, ht, haf, List.isEmpty]
  · by_cases ho : r.resourceType = str "Observation"
        ∨ r.resourceType = str "DiagnosticReport"
        ∨ r.resourceType = str "Procedure"
    · cases haf : env.auditFails idx <;> simp [hc, ho, haf]
    · cases haf : env.auditFails idx <;> simp [hc, ho, haf]

theorem processEntries_effect (env : BundleEnv) (consentRef : Option Str)
    (entries : List Resource) :
    ∀ (idx : Nat) (st : ProcState),
    (processEntries env consentRef idx entries st).errors =
        st.errors ++ expectedErrors env idx entries
    ∧ (processEntries env consentRef idx entries st).entryAudits =
        st.entryAudits ++
          expectedAudits env consentRef idx st.mappingsAdded entries
    ∧ (processEntries env consentRef idx entries st).mappingsAdded =
        st.mappingsAdded + totalMappingDelta env entries
    ∧ (processEntries env consentRef idx entries st).created =
        st.created ++ expectedCreated env idx entries := by
  induction entries with
  | nil =>
    intro idx st
    simp [processEntries, expectedErrors, expectedAudits,
      totalMappingDelta, expectedCreated]
  | cons r rest ih =>
    intro idx st
    simp only [processEntries]
    rw [processEntry_effect]
    obtain ⟨h1, h2, h3, h4⟩ := ih (idx + 1)
      { resources := st.resources ++ [transformedResource env r],
        created := st.created ++ entryCreatedRefs env idx r,
        errors := st.errors ++ (if env.auditFails idx then
          [auditErrorMsg r.resourceType (r.id.getD (env.freshId idx))
            (env.auditExc idx)]
          else []),
        mappingsAdded := st.mappingsAdded + entryMappingDelta env r,
        entryAudits := st.entryAudits ++ (if env.auditFails idx then []
          else
            [entryAuditRecord env consentRef r
              (r.id.getD (env.freshId idx))
              (st.mappingsAdded + entryMappingDelta env r)]) }
    refine ⟨?_, ?_, ?_, ?_⟩
    · rw [h1]
      simp [expectedErrors, List.append_assoc]
    · rw [h2]
      simp [expectedAudits, List.append_assoc]
    · rw [h3]
      simp [totalMappingDelta, Nat.add_assoc]
    · rw [h4]
      simp [expectedCreated, List.append_assoc]

/-- C7: a Condition entry carrying a coding in the local terminology
system, for whose code the resolver returns at least one candidate,
increases mappingsAdded by exactly 1 and appends exactly one new coding
— built from the first (highest-confidence) candidate — after the
pre-existing codings, which are preserved unchanged and in order. -/
theorem condition_entry_appends_first_candidate (env : BundleEnv)
    (consentRef : Option Str) (idx : Nat) (r : Resource) (st : ProcState)
    (nc : Coding) (t : TranslationCandidate)
    (ts : List TranslationCandidate)
    (hT : r.resourceType = str "Condition")
    (hnc : findNamasteCoding r.codings = some nc)
    (ht : translate env.mappings env.concepts (str "namaste") nc.code
      = t :: ts) :
    (processEntry env consentRef idx r st).mappingsAdded
      = st.mappingsAdded + 1
    ∧ (processEntry env consentRef idx r st).resources =
        st.resources ++
          [{ r with
              codings := r.codings ++ [icd11CodingOf t],
              metaExtensions := r.metaExtensions ++ [env.marker] }]
    ∧ (∀ u ∈ translate env.mappings env.concepts (str "namaste") nc.code,
        u.confidence ≤ t.confidence) := by
  rw [processEntry_effect]
  refine ⟨?_, ?_, ?_⟩
  · simp [entryMappingDelta, hT, hnc, ht, List.isEmpty]
  · simp [transformedResource, hT, hnc, ht]
  · intro u hu
    have hs : (translate env.mappings env.concepts (str "namaste")
        nc.code).Pairwise (fun a b => b.confidence ≤ a.confidence) :=
      sortDesc_sorted _ _
    rw [ht] at hs hu
    rw [List.pairwise_cons] at hs
    rcases List.mem_cons.mp hu with rfl | hu2
    · exact le_refl _
    · exact hs.1 u hu2

def envW : BundleEnv :=
  { concepts := [], mappings := mappingsW, actor := str "doctor",
    bundleId := str "b1", provenanceId := str "p1",
    freshId := fun _ => str "f", marker := str "m",
    auditFails := fun _ => false, auditIds := fun _ => str "a7",
    auditExc := fun _ => str "boom" }

def ncW : Coding :=
  { system := namasteSystemURI, code := str "NAM-AY-0001",
    display := str "Jwara", userSelected := false }

def condResource : Resource :=
  { resourceType := str "Condition", id := some (str "c1"),
    codings := [ncW], metaExtensions := [] }

/-- Witness for C7: one Condition entry, three stored mappings; the
count goes from 0 to 1. -/
theorem condition_entry_appends_first_candidate_witness :
    (processEntry envW none 0 condResource initState).mappingsAdded =
      initState.mappingsAdded + 1 :=
  (condition_entry_appends_first_candidate envW none 0 condResource
    initState ncW (translationCandidateOf [] (mapW (str "AB11") (9/10)))
    [translationCandidateOf [] (mapW (str "AB13") (8/10)),
     translationCandidateOf [] (mapW (str "AB12") (6/10))]
    (by decide) (by decide) (by decide)).1

/-- C10: an entry whose kind is none of Condition, Observation,
DiagnosticReport, Procedure (Consent included) contributes nothing to
created, leaves its resource completely unmodified and causes no
failure, while a per-entry audit write is still attempted for it
(succeeding or adding one error). -/
theorem unrecognized_entry_passthrough (env : BundleEnv)
    (consentRef : Option Str) (idx : Nat) (r : Resource) (st : ProcState)
    (h1 : r.resourceType ≠ str "Condition")
    (h2 : r.resourceType ≠ str "Observation")
    (h3 : r.resourceType ≠ str "DiagnosticReport")
    (h4 : r.resourceType ≠ str "Procedure") :
    (processEntry env consentRef idx r st).resources = st.resources ++ [r]
    ∧ (processEntry env consentRef idx r st).created = st.created
    ∧ (processEntry env consentRef idx r st).mappingsAdded
        = st.mappingsAdded
    ∧ (env.auditFails idx = false →
        (processEntry env consentRef idx r st).entryAudits =
          st.entryAudits ++
            [entryAuditRecord env consentRef r
              (r.id.getD (env.freshId idx)) st.mappingsAdded]
        ∧ (processEntry env consentRef idx r st).errors = st.errors)
    ∧ (env.auditFails idx = true →
        (processEntry env consentRef idx r st).errors =
          st.errors ++ [auditErrorMsg r.resourceType
            (r.id.getD (env.freshId idx)) (env.auditExc idx)]
        ∧ (processEntry env consentRef idx r st).entryAudits
            = st.entryAudits) := by
  have ho : ¬(r.resourceType = str "Observation"
      ∨ r.resourceType = str "DiagnosticReport"
      ∨ r.resourceType = str "Procedure") := by
    push_neg
    exact ⟨h2, h3, h4⟩
  rw [processEntry_effect]
  refine ⟨?_, ?_, ?_, ?_, ?_⟩
  · simp [transformedResource, h1]
  · simp [entryCreatedRefs, h1, ho]
  · simp [entryMappingDelta, h1]
  · intro hf
    exact ⟨by simp [hf, entryMappingDelta, h1], by simp [hf]⟩
  · intro hf
    exact ⟨by simp [hf], by simp [hf]⟩

def consentResource : Resource :=
  { resourceType := str "Consent", id := some (str "k1"),
    codings := [], metaExtensions := [] }

/-- Witness for C10: a Consent entry adds no created reference. -/
theorem unrecognized_entry_passthrough_witness :
    (processEntry envW none 0 consentResource initState).created =
      initState.created :=
  (unrecognized_entry_passthrough envW none 0 consentResource initState
    (by decide) (by decide) (by decide) (by decide)).2.1

def obsResource : Resource :=
  { resourceType := str "Observation", id := some (str "o1"),
    codings := [], metaExtensions := [] }

def bundleCE : Bundle :=
  { resourceType := str "Bundle", entries := [obsResource] }

def envCE : BundleEnv :=
  { concepts := [], mappings := [], actor := str "doctor",
    bundleId := str "b1", provenanceId := str "p1",
    freshId := fun _ => str "f", marker := str "m",
    auditFails := fun n => decide (n = 1), auditIds := fun _ => str "a7",
    auditExc := fun _ => str "boom" }

/-- Counterexample to C3 as stated: a structurally valid bundle whose
summary AuditRecord write fails is answered with HTTP 500, not with a
success result — only per-entry audit write failures are tolerated. -/
theorem summary_audit_failure_aborts :
    bundleCE.resourceType = str "Bundle"
    ∧ (uploadBundle envCE bundleCE 0).1 =
        HttpOutcome.error 500 (str "Error processing bundle: boom") := by
  exact ⟨rfl, rfl⟩

/-- C3 (amended): for every structurally valid bundle, a failure writing
a per-entry AuditRecord never aborts the operation — it still returns a
success result with the failure accumulated into the returned errors
list — provided the summary AuditRecord write succeeds; a failure
writing the summary AuditRecord aborts the operation with a server
error (after a best-effort failure audit). -/
theorem audit_failure_handling (env : BundleEnv) (bundle : Bundle)
    (elapsedMs : ℚ) (hb : bundle.resourceType = str "Bundle") :
    (env.auditFails bundle.entries.length = false →
      (uploadBundle env bundle elapsedMs).1 = HttpOutcome.ok
        { success := true,
          message := str "Bundle processed successfully",
          created_resources := expectedCreated env 0 bundle.entries
            ++ [str "Provenance/" ++ env.provenanceId],
          provenance_id := env.provenanceId,
          audit_id := env.auditIds bundle.entries.length,
          mappings_added := totalMappingDelta env bundle.entries,
          errors := expectedErrors env 0 bundle.entries })
    ∧ (env.auditFails bundle.entries.length = true →
      (uploadBundle env bundle elapsedMs).1 =
        HttpOutcome.error 500 (str "Error processing bundle: "
          ++ env.auditExc bundle.entries.length)) := by
  obtain ⟨h1, h2, h3, h4⟩ :=
    processEntries_effect env (bundleConsentRef bundle) bundle.entries 0
      initState
  have he : (processEntries env (bundleConsentRef bundle) 0
      bundle.entries initState).errors =
      expectedErrors env 0 bundle.entries := by
    rw [h1]
    simp [initState]
  have hm : (processEntries env (bundleConsentRef bundle) 0
      bundle.entries initState).mappingsAdded =
      totalMappingDelta env bundle.entries := by
    rw [h3]
    simp [initState]
  have hcr : (processEntries env (bundleConsentRef bundle) 0
      bundle.entries initState).created =
      expectedCreated env 0 bundle.entries := by
    rw [h4]
    simp [initState]
  constructor
  · intro hs
    simp only [uploadBundle]
    rw [if_neg (by simp [hb])]
    rw [if_neg (by simp [hs])]
    simp [he, hm, hcr]
  · intro hs
    simp only [uploadBundle]
    rw [if_neg (by simp [hb])]
    rw [if_pos (by simp [hs])]

def envC3 : BundleEnv :=
  { concepts := [], mappings := [], actor := str "doctor",
    bundleId := str "b1", provenanceId := str "p1",
    freshId := fun _ => str "f", marker := str "m",
    auditFails := fun n => decide (n = 0), auditIds := fun _ => str "a7",
    auditExc := fun _ => str "boom" }

/-- Witness for C3 (amended): the per-entry audit write fails, the
summary write succeeds, and the call still succeeds with the failure in
the returned errors. -/
theorem audit_failure_handling_witness :
    (uploadBundle envC3 bundleCE 0).1 = HttpOutcome.ok
      { success := true,
        message := str "Bundle processed successfully",
        created_resources := expectedCreated envC3 0 bundleCE.entries
          ++ [str "Provenance/" ++ envC3.provenanceId],
        provenance_id := envC3.provenanceId,
        audit_id := envC3.auditIds bundleCE.entries.length,
        mappings_added := totalMappingDelta envC3 bundleCE.entries,
        errors := expectedErrors envC3 0 bundleCE.entries } :=
  (audit_failure_handling envC3 bundleCE 0 (by decide)).1 (by decide)

theorem expectedAudits_action (env : BundleEnv) (consentRef : Option Str) :
    ∀ (entries : List Resource) (idx count : Nat),
    ∀ a ∈ expectedAudits env consentRef idx count entries,
      a.action = str "create" := by
  intro entries
  induction entries with
  | nil =>
    intro idx count a ha
    simp [expectedAudits] at ha
  | cons r rest ih =>
    intro idx count a ha
    simp only [expectedAudits, List.mem_append] at ha
    rcases ha with ha | ha
    · revert ha
      split <;> intro ha
      · simp at ha
      · simp at ha
        subst ha
        rfl
    · exact ih _ _ a ha

theorem expectedAudits_length (env : BundleEnv) (consentRef : Option Str) :
    ∀ (entries : List Resource) (idx count : Nat),
    (∀ i, i < entries.length → env.auditFails (idx + i) = false) →
    (expectedAudits env consentRef idx count entries).length
      = entries.length := by
  intro entries
  induction entries with
  | nil =>
    intro idx count _
    simp [expectedAudits]
  | cons r rest ih =>
    intro idx count h
    have h0 : env.auditFails idx = false := by
      simpa using h 0 (by simp)
    have ih2 := ih (idx + 1) (count + entryMappingDelta env r)
      (fun i hi => by
        have hx := h (i + 1) (by simpa using Nat.succ_lt_succ hi)
        have : idx + (i + 1) = idx + 1 + i := by omega
        rw [this] at hx
        exact hx)
    simp [expectedAudits, h0, ih2]

/-- C8: a structurally valid bundle (whose summary audit write succeeds,
so that a response is returned) writes, per entry, exactly one
AuditRecord with action create carrying the bundle id, the consent
reference, the entry's resource kind and the running mappingsAdded
count — one per entry when no per-entry write fails — followed by the
summary record; a failed per-entry write instead contributes one message
to the returned errors and does not stop processing (the response is
still a success and the mapping total is unaffected). -/
theorem per_entry_audit_records (env : BundleEnv) (bundle : Bundle)
    (elapsedMs : ℚ) (hb : bundle.resourceType = str "Bundle")
    (hs : env.auditFails bundle.entries.length = false) :
    (uploadBundle env bundle elapsedMs).2 =
      expectedAudits env (bundleConsentRef bundle) 0 0 bundle.entries
        ++ [summaryAuditRecord env (bundleConsentRef bundle)
              (expectedCreated env 0 bundle.entries
                ++ [str "Provenance/" ++ env.provenanceId]).length
              (totalMappingDelta env bundle.entries) elapsedMs]
    ∧ (∀ a ∈ expectedAudits env (bundleConsentRef bundle) 0 0
          bundle.entries, a.action = str "create")
    ∧ ((∀ i, i < bundle.entries.length → env.auditFails i = false) →
        (expectedAudits env (bundleConsentRef bundle) 0 0
          bundle.entries).length = bundle.entries.length)
    ∧ (∃ resp, (uploadBundle env bundle elapsedMs).1 = HttpOutcome.ok resp
        ∧ resp.errors = expectedErrors env 0 bundle.entries
        ∧ resp.mappings_added = totalMappingDelta env bundle.entries) := by
  obtain ⟨h1, h2, h3, h4⟩ :=
    processEntries_effect env (bundleConsentRef bundle) bundle.entries 0
      initState
  have ha : (processEntries env (bundleConsentRef bundle) 0
      bundle.entries initState).entryAudits =
      expectedAudits env (bundleConsentRef bundle) 0 0 bundle.entries := by
    rw [h2]
    simp [initState]
  have he : (processEntries env (bundleConsentRef bundle) 0
      bundle.entries initState).errors =
      expectedErrors env 0 bundle.entries := by
    rw [h1]
    simp [initState]
  have hm : (processEntries env (bundleConsentRef bundle) 0
      bundle.entries initState).mappingsAdded =
      totalMappingDelta env bundle.entries := by
    rw [h3]
    simp [initState]
  have hcr : (processEntries env (bundleConsentRef bundle) 0
      bundle.entries initState).created =
      expectedCreated env 0 bundle.entries := by
    rw [h4]
    simp [initState]
  refine ⟨?_, expectedAudits_action env (bundleConsentRef bundle)
    bundle.entries 0 0, ?_, ?_⟩
  · simp only [uploadBundle]
    rw [if_neg (by simp [hb])]
    rw [if_neg (by simp [hs])]
    simp [ha, hm, hcr]
  · intro h
    exact expectedAudits_length env (bundleConsentRef bundle)
      bundle.entries 0 0 (fun i hi => by simpa using h i hi)
  · have hok : (uploadBundle env bundle elapsedMs).1 = HttpOutcome.ok
        { success := true
          message := str "Bundle processed successfully"
          created_resources :=
            (processEntries env (bundleConsentRef bundle) 0
              bundle.entries initState).created
              ++ [str "Provenance/" ++ env.provenanceId]
          provenance_id := env.provenanceId
          audit_id := env.auditIds bundle.entries.length
          mappings_added :=
            (processEntries env (bundleConsentRef bundle) 0
              bundle.entries initState).mappingsAdded
          errors :=
            (processEntries env (bundleConsentRef bundle) 0
              bundle.entries initState).errors } := by
      simp only [uploadBundle]
      rw [if_neg (by simp [hb])]
      rw [if_neg (by simp [hs])]
    exact ⟨_, hok, he, hm⟩

/-- Witness for C8: the concrete single-entry bundle with a failing
per-entry audit write still yields a success with the recorded error. -/
theorem per_entry_audit_records_witness :
    ∃ resp, (uploadBundle envC3 bundleCE 0).1 = HttpOutcome.ok resp
      ∧ resp.errors = expectedErrors envC3 0 bundleCE.entries
      ∧ resp.mappings_added = totalMappingDelta envC3 bundleCE.entries :=
  (per_entry_audit_records envC3 bundleCE 0 (by decide)
    (by decide)).2.2.2

end NamasteICD
